import Mathlib

/-!
Verification of the HydroSnap QR generation/validation core
(`QR_generation/generate_qr_codes.py` and `QR_generation/qr_validator.py`).

The Python code is shallowly embedded below.  Python runtime values that can
appear in a decoded JSON payload are modelled by `JValue`; Python `float`
values are modelled by `PyFloat`, a canonical finite-decimal representation
(value = m / 10 ^ e), which is exact for every literal appearing in the
repository's data.  Exceptions are modelled by `Except String` (raised) or
`Option` (raised-and-caught); clock reads (`datetime.now()`) are explicit
parameters.  External library primitives (hashlib.sha256, HMAC, AES-CTR
inside cryptography.fernet.Fernet, zlib.compress) are modelled by concrete
executable stand-ins that keep the library's interface, sizes and framing
exactly; base64.urlsafe_b64encode/b64decode are implemented for real
(decode is strict about its alphabet, a simplification of CPython's
discard-invalid-characters behaviour that does not affect any result
proved here).
-/

/-- Modelled from Python bytes: a byte string is a list of naturals < 256. -/
abbrev Bytes := List Nat

/-- Modelled from str.encode(): code points of the string (exact on ASCII,
which is all the repository's data uses). -/
def strToBytes (s : String) : Bytes := s.data.map Char.toNat

/-- Modelled from bytes.decode(): inverse of `strToBytes`. -/
def bytesToStr (bs : Bytes) : String := String.mk (bs.map Char.ofNat)

/-- Modelled from Python float: canonical finite decimal m / 10 ^ e. -/
structure PyFloat where
  m : Int
  e : Nat
deriving DecidableEq, Repr

/-- Strip trailing decimal zeros so that the representation is canonical. -/
def pyFloatNormAux : Int → Nat → PyFloat
  | m, 0 => ⟨m, 0⟩
  | m, e + 1 => if m % 10 = 0 then pyFloatNormAux (m / 10) e else ⟨m, e + 1⟩

/-- Smart constructor keeping `PyFloat` canonical. -/
def PyFloat.norm (m : Int) (e : Nat) : PyFloat := pyFloatNormAux m e

/-- Left-pad a string with zeros to length `k`. -/
def zeroPad (s : String) (k : Nat) : String :=
  String.mk (List.replicate (k - s.length) '0') ++ s

/-- Modelled from repr()/str() of a Python float (exact on the canonical
finite decimals this development uses). -/
def PyFloat.pyRepr (f : PyFloat) : String :=
  if f.e = 0 then toString f.m ++ ".0"
  else
    let p : Nat := 10 ^ f.e
    let a : Nat := f.m.natAbs
    (if f.m < 0 then "-" else "") ++ toString (a / p) ++ "." ++ zeroPad (toString (a % p)) f.e

/-- Modelled from the Python values `json.loads` can produce: str, int,
float, bool, None, dict, list. -/
inductive JValue where
  | jstr (s : String)
  | jint (n : Int)
  | jnum (f : PyFloat)
  | jbool (b : Bool)
  | jnull
  | jobj (fields : List (String × JValue))
  | jarr (items : List JValue)
deriving Repr

open JValue

/-- Modelled from Python truthiness (`if not site_data:` etc.). -/
def pythonTruthy : JValue → Bool
  | jstr s => !(s == "")
  | jint n => !(n == 0)
  | jnum f => !(f.m == 0)
  | jbool b => b
  | jnull => false
  | jobj fields => !fields.isEmpty
  | jarr items => !items.isEmpty

/-- Truthiness of an optional value; Python `None` is falsy. -/
def pythonTruthyOpt : Option JValue → Bool
  | none => false
  | some v => pythonTruthy v

/-- Dict lookup on the association list modelling a Python dict. -/
def lookupField : List (String × JValue) → String → Option JValue
  | [], _ => none
  | (k, w) :: rest, key => if k = key then some w else lookupField rest key

/-- Dict assignment: replace in place if the key exists, else append
(the insertion-order behaviour of Python dicts). -/
def insertKey : List (String × JValue) → String → JValue → List (String × JValue)
  | [], key, v => [(key, v)]
  | (k, w) :: rest, key, v =>
    if k = key then (k, v) :: rest else (k, w) :: insertKey rest key v

/-- Modelled from Python subscription `x[key]`: KeyError on a missing key,
TypeError when the value is not a dict. -/
def pySubscript (v : JValue) (key : String) : Except String JValue :=
  match v with
  | jobj fields =>
    match lookupField fields key with
    | some w => .ok w
    | none => .error "KeyError"
  | _ => .error "TypeError"

/-- Modelled from `x.get(key)`: AttributeError when `x` is not a dict. -/
def pyDictGet (v : JValue) (key : String) : Except String (Option JValue) :=
  match v with
  | jobj fields => .ok (lookupField fields key)
  | _ => .error "AttributeError"

/-- Modelled from `x.get(key, dflt)`: AttributeError when `x` is not a dict. -/
def pyDictGetD (v : JValue) (key : String) (dflt : JValue) : Except String JValue :=
  match v with
  | jobj fields => .ok ((lookupField fields key).getD dflt)
  | _ => .error "AttributeError"

/-- JSON string escaping as json.dumps performs it on the repository's data
(quote and backslash; ensure_ascii escapes for exotic characters are not
modelled). -/
def escString (s : String) : String :=
  String.mk (s.data.foldr
    (fun c acc =>
      if c = '"' then '\\' :: '"' :: acc
      else if c = '\\' then '\\' :: '\\' :: acc
      else c :: acc) [])

mutual

/-- Modelled from json.dumps(x, separators=(",", ":")): compact canonical
serialization, object members in dict insertion order. -/
def jsonDumps : JValue → String
  | jstr s => "\"" ++ escString s ++ "\""
  | jint n => toString n
  | jnum f => f.pyRepr
  | jbool b => if b then "true" else "false"
  | jnull => "null"
  | jobj fields => "\x7b" ++ jsonDumpsFields fields ++ "\x7d"
  | jarr items => "[" ++ jsonDumpsItems items ++ "]"

/-- Comma-separated object members of `jsonDumps`. -/
def jsonDumpsFields : List (String × JValue) → String
  | [] => ""
  | [(k, v)] => "\"" ++ escString k ++ "\":" ++ jsonDumps v
  | (k, v) :: rest => "\"" ++ escString k ++ "\":" ++ jsonDumps v ++ "," ++ jsonDumpsFields rest

/-- Comma-separated array items of `jsonDumps`. -/
def jsonDumpsItems : List JValue → String
  | [] => ""
  | [v] => jsonDumps v
  | v :: rest => jsonDumps v ++ "," ++ jsonDumpsItems rest

end

/-- Modelled from str() applied to a decoded JSON value, as the f-string in
`create_validation_hash` uses it (dict/list rendering simplified to the
JSON form; the repository only formats strings and floats this way). -/
def pyStr : JValue → String
  | jstr s => s
  | jint n => toString n
  | jnum f => f.pyRepr
  | jbool b => if b then "True" else "False"
  | jnull => "None"
  | v => jsonDumps v

/-- Modelled from the urlsafe base64 alphabet: value 0..63 to code point. -/
def b64Char (n : Nat) : Nat :=
  if n < 26 then 65 + n
  else if n < 52 then 71 + n
  else if n < 62 then n - 4
  else if n = 62 then 45
  else 95

/-- Code point back to its base64 value; `none` off the urlsafe alphabet. -/
def b64CharVal (c : Nat) : Option Nat :=
  if 65 ≤ c ∧ c ≤ 90 then some (c - 65)
  else if 97 ≤ c ∧ c ≤ 122 then some (c - 71)
  else if 48 ≤ c ∧ c ≤ 57 then some (c + 4)
  else if c = 45 then some 62
  else if c = 95 then some 63
  else none

/-- Split a byte string into 3-byte groups (last group may be short). -/
def chunks3 : Bytes → List Bytes
  | [] => []
  | a :: b :: c :: r => [a, b, c] :: chunks3 r
  | l => [l]

/-- Encode one group of at most three bytes into four base64 characters. -/
def b64EncChunk : Bytes → Bytes
  | [a, b, c] => [b64Char (a / 4), b64Char (a % 4 * 16 + b / 16),
      b64Char (b % 16 * 4 + c / 64), b64Char (c % 64)]
  | [a, b] => [b64Char (a / 4), b64Char (a % 4 * 16 + b / 16), b64Char (b % 16 * 4), 61]
  | [a] => [b64Char (a / 4), b64Char (a % 4 * 16), 61, 61]
  | _ => []

/-- Modelled from base64.urlsafe_b64encode. -/
def b64encodeBytes (bs : Bytes) : Bytes :=
  (chunks3 bs).foldr (fun c acc => b64EncChunk c ++ acc) []

/-- Split into 4-character groups; `none` when the length is not a multiple
of four (binascii.Error). -/
def chunks4 : Bytes → Option (List Bytes)
  | [] => some []
  | a :: b :: c :: d :: r => (chunks4 r).map (fun l => [a, b, c, d] :: l)
  | _ => none

/-- Decode a full (non-padded) base64 group of four characters. -/
def b64DecChunkFull : Bytes → Option Bytes
  | [a, b, c, d] =>
    match b64CharVal a, b64CharVal b, b64CharVal c, b64CharVal d with
    | some va, some vb, some vc, some vd =>
      some [va * 4 + vb / 16, vb % 16 * 16 + vc / 4, vc % 4 * 64 + vd]
    | _, _, _, _ => none
  | _ => none

/-- Decode the final base64 group, which may carry padding. -/
def b64DecChunkLast (ch : Bytes) : Option Bytes :=
  match ch with
  | [a, b, c, d] =>
    if c = 61 ∧ d = 61 then
      match b64CharVal a, b64CharVal b with
      | some va, some vb => some [va * 4 + vb / 16]
      | _, _ => none
    else if d = 61 then
      match b64CharVal a, b64CharVal b, b64CharVal c with
      | some va, some vb, some vc => some [va * 4 + vb / 16, vb % 16 * 16 + vc / 4]
      | _, _, _ => none
    else b64DecChunkFull ch
  | _ => none

/-- Decode a list of 4-character groups; padding only in the last group. -/
def b64DecGo : List Bytes → Option Bytes
  | [] => some []
  | [ch] => b64DecChunkLast ch
  | ch :: rest =>
    match b64DecChunkFull ch, b64DecGo rest with
    | some bs, some more => some (bs ++ more)
    | _, _ => none

/-- Modelled from base64.urlsafe_b64decode; strict about the alphabet. -/
def pyUrlsafeB64decode (s : Bytes) : Option Bytes := (chunks4 s).bind b64DecGo

/-- Rolling fold used by the executable hash stand-ins. -/
def rollHash (seed : Nat) (bs : Bytes) : Nat :=
  bs.foldl (fun a b => (a * 257 + b + 1) % 2147483647) seed

/-- Modelled from hashlib.sha256(...).digest(): an executable 32-byte
stand-in for the external one-way hash (the claims concern the digest's
use, length and framing, not the SHA-2 compression function). -/
def sha256digest (bs : Bytes) : Bytes :=
  (List.range 32).map (fun i => rollHash (i + 101) bs % 256)

/-- Lowercase hexadecimal digit for a value < 16. -/
def hexChar (n : Nat) : Char := Char.ofNat (if n < 10 then 48 + n else 87 + n)

/-- Render a byte string as lowercase hexadecimal. -/
def bytesToHex (bs : Bytes) : String :=
  String.mk (bs.foldr (fun b acc => hexChar (b / 16) :: hexChar (b % 16) :: acc) [])

/-- Modelled from hashlib.sha256(...).hexdigest(). -/
def sha256hexdigest (bs : Bytes) : String := bytesToHex (sha256digest bs)

/-- Python string slice s[:n]. -/
def strTake (s : String) (n : Nat) : String := String.mk (s.data.take n)

/-- Modelled from HMAC-SHA256 inside Fernet: executable keyed stand-in. -/
def hmacSha256 (key msg : Bytes) : Bytes := sha256digest (key ++ 54 :: msg)

/-- Modelled from the AES-128-CTR keystream inside Fernet: executable
keyed stand-in, one byte per position. -/
def keystreamByte (key iv : Bytes) (i : Nat) : Nat :=
  rollHash 7 (key ++ iv ++ [i % 256, i / 256 % 256]) % 256

/-- CTR-mode encryption/decryption: XOR the data with the keystream. -/
def ctrXor (key iv : Bytes) (data : Bytes) : Bytes :=
  data.enum.map (fun p => Nat.xor p.2 (keystreamByte key iv p.1))

/-- Modelled from cryptography.fernet.Fernet: holds the two 16-byte halves
of the 32-byte key (signing key, encryption key). -/
structure Fernet where
  signing_key : Bytes
  encryption_key : Bytes
deriving DecidableEq, Repr

/-- Modelled from Fernet(key): the constructor takes the urlsafe-base64
encoding of a 32-byte key and splits it. -/
def Fernet.ofB64Key (b64key : Bytes) : Except String Fernet :=
  match pyUrlsafeB64decode b64key with
  | none => .error "ValueError"
  | some k => if k.length = 32 then .ok ⟨k.take 16, k.drop 16⟩ else .error "ValueError"

/-- Big-endian 8-byte timestamp field of a Fernet token. -/
def tsBytes (ts : Nat) : Bytes := (List.range 8).map (fun i => ts / 256 ^ (7 - i) % 256)

/-- Modelled from Fernet.encrypt at a given timestamp and IV (Fernet draws
these per call; the code under proof never fixes them): version byte 0x80,
timestamp, IV, ciphertext, then the 32-byte HMAC tag, urlsafe-base64
encoded. -/
def Fernet.encryptAt (f : Fernet) (ts : Nat) (iv : Bytes) (pt : Bytes) : Bytes :=
  let body := 128 :: (tsBytes ts ++ iv ++ ctrXor f.encryption_key iv pt)
  b64encodeBytes (body ++ hmacSha256 f.signing_key body)

/-- Modelled from Fernet.decrypt: base64-decode the token, check framing,
version byte and HMAC tag, then decrypt; `none` models the InvalidToken
exception.  All-or-nothing: no partial payload on failure. -/
def Fernet.decrypt (f : Fernet) (tok : Bytes) : Option Bytes :=
  match pyUrlsafeB64decode tok with
  | none => none
  | some data =>
    if data.length < 57 then none
    else if data.head? = some 128 then
      let body := data.take (data.length - 32)
      let tag := data.drop (data.length - 32)
      if tag = hmacSha256 f.signing_key body then
        some (ctrXor f.encryption_key ((data.drop 9).take 16) ((data.drop 25).take (data.length - 57)))
      else none
    else none

/-- Modelled from the Adler-32 checksum that ends a zlib stream. -/
def adler32 (bs : Bytes) : Bytes :=
  let s := bs.foldl (fun p b => ((p.1 + b) % 65521, (p.2 + p.1 + b) % 65521)) (1, 0)
  [s.2 / 256, s.2 % 256, s.1 / 256, s.1 % 256]

/-- Modelled from zlib.compress(data, level=9): the level-9 header bytes
0x78 0xDA, the DEFLATE body (modelled as the identity — the external
compressor is lossless and its exact bit stream is immaterial to the
claims), and the Adler-32 trailer. -/
def zlibCompress (bs : Bytes) : Bytes := 120 :: 218 :: (bs ++ adler32 bs)

/-- Left-brace character (code point 123). -/
def lbraceChar : Char := Char.ofNat 123

/-- Right-brace character (code point 125). -/
def rbraceChar : Char := Char.ofNat 125

/-- JSON whitespace. -/
def isWsChar (c : Char) : Bool := c = ' ' || c = '\t' || c = '\n' || c = '\r'

/-- Drop leading JSON whitespace. -/
def skipWs (cs : List Char) : List Char := cs.dropWhile isWsChar

/-- ASCII decimal digit test. -/
def isDigitChar (c : Char) : Bool := 48 ≤ c.toNat && c.toNat ≤ 57

/-- Value of a decimal digit character. -/
def digitVal (c : Char) : Nat := c.toNat - 48

/-- Fold a digit list into a natural number. -/
def digitsToNat (ds : List Char) : Nat := ds.foldl (fun a c => a * 10 + digitVal c) 0

/-- Escape values accepted inside a JSON string (the subset json.dumps
emits for this repository's data). -/
def escVal (e : Char) : Option Char :=
  if e = '"' then some '"'
  else if e = '\\' then some '\\'
  else if e = '/' then some '/'
  else if e = 'n' then some '\n'
  else if e = 't' then some '\t'
  else if e = 'r' then some '\r'
  else none

/-- Parse the remainder of a JSON string (after the opening quote),
returning content and the rest after the closing quote. -/
def parseJStringGo : Nat → List Char → Option (List Char × List Char)
  | 0, _ => none
  | _ + 1, [] => none
  | fuel + 1, c :: rest =>
    if c = '"' then some ([], rest)
    else if c = '\\' then
      match rest with
      | [] => none
      | e :: rest2 =>
        match escVal e with
        | none => none
        | some ch => (parseJStringGo fuel rest2).map (fun p => (ch :: p.1, p.2))
    else (parseJStringGo fuel rest).map (fun p => (c :: p.1, p.2))

/-- Parse a JSON number (exponent forms are not modelled; json.dumps never
emits them for this repository's data).  Integers parse to Python int,
decimal-point forms to Python float, as json.loads distinguishes them. -/
def parseJNumber (cs : List Char) : Option (JValue × List Char) :=
  let signed := match cs with
    | c :: r => if c = '-' then (true, r) else (false, cs)
    | [] => (false, cs)
  let ds := signed.2.takeWhile isDigitChar
  if ds.isEmpty then none
  else
    let n := digitsToNat ds
    let cs2 := signed.2.drop ds.length
    match cs2 with
    | c :: cs3 =>
      if c = '.' then
        let fs := cs3.takeWhile isDigitChar
        if fs.isEmpty then none
        else
          let mAbs : Int := (n * 10 ^ fs.length + digitsToNat fs : Nat)
          some (jnum (PyFloat.norm (if signed.1 then -mAbs else mAbs) fs.length), cs3.drop fs.length)
      else some (jint (if signed.1 then -(n : Int) else (n : Int)), cs2)
    | [] => some (jint (if signed.1 then -(n : Int) else (n : Int)), cs2)

mutual

/-- Modelled from json.loads' recursive-descent grammar: parse one JSON
value, returning it and the unconsumed rest.  `fuel` only enforces
termination; `jsonLoads` supplies enough for any input. -/
def parseJValue : Nat → List Char → Option (JValue × List Char)
  | 0, _ => none
  | fuel + 1, cs =>
    match skipWs cs with
    | [] => none
    | c :: rest =>
      if c = '"' then
        (parseJStringGo (rest.length + 1) rest).map (fun p => (jstr (String.mk p.1), p.2))
      else if c = 't' then
        match rest with
        | 'r' :: 'u' :: 'e' :: r => some (jbool true, r)
        | _ => none
      else if c = 'f' then
        match rest with
        | 'a' :: 'l' :: 's' :: 'e' :: r => some (jbool false, r)
        | _ => none
      else if c = 'n' then
        match rest with
        | 'u' :: 'l' :: 'l' :: r => some (jnull, r)
        | _ => none
      else if c = lbraceChar then
        match skipWs rest with
        | [] => none
        | c2 :: r2 =>
          if c2 = rbraceChar then some (jobj [], r2)
          else parseJMembers fuel (c2 :: r2) []
      else if c = '[' then
        match skipWs rest with
        | [] => none
        | c2 :: r2 =>
          if c2 = ']' then some (jarr [], r2)
          else parseJItems fuel (c2 :: r2) []
      else parseJNumber (c :: rest)

/-- Parse the members of a JSON object after its opening brace (later
duplicate keys overwrite earlier ones, as in a Python dict). -/
def parseJMembers : Nat → List Char → List (String × JValue) → Option (JValue × List Char)
  | 0, _, _ => none
  | fuel + 1, cs, acc =>
    match skipWs cs with
    | '"' :: rest =>
      match parseJStringGo (rest.length + 1) rest with
      | none => none
      | some (keyChars, r1) =>
        match skipWs r1 with
        | ':' :: r2 =>
          match parseJValue fuel r2 with
          | none => none
          | some (v, r3) =>
            let acc2 := insertKey acc (String.mk keyChars) v
            match skipWs r3 with
            | ',' :: r4 => parseJMembers fuel r4 acc2
            | cr :: r4 => if cr = rbraceChar then some (jobj acc2, r4) else none
            | [] => none
        | _ => none
    | _ => none

/-- Parse the items of a JSON array after its opening bracket. -/
def parseJItems : Nat → List Char → List JValue → Option (JValue × List Char)
  | 0, _, _ => none
  | fuel + 1, cs, acc =>
    match parseJValue fuel cs with
    | none => none
    | some (v, r1) =>
      match skipWs r1 with
      | ',' :: r2 => parseJItems fuel r2 (acc ++ [v])
      | ']' :: r2 => some (jarr (acc ++ [v]), r2)
      | _ => none

end

/-- Modelled from json.loads: parse a complete JSON document; `none`
models json.JSONDecodeError. -/
def jsonLoads (s : String) : Option JValue :=
  match parseJValue (s.length + 1) s.data with
  | none => none
  | some (v, rest) => if (skipWs rest).isEmpty then some v else none

/-- Microseconds in the 365-day lifetime `timedelta(days=365)`. -/
def DAYS365 : Int := 365 * 86400 * 1000000

/-- Modelled from datetime.isoformat(): an injective rendering of the
timestamp (microseconds since the epoch).  The concrete ISO-8601 layout is
immaterial to the claims; only injectivity and round-tripping with
`datetime_fromisoformat` matter. -/
def isoformat (t : Int) : String := toString t

/-- Digit-list parser for `datetime_fromisoformat`. -/
def parseDigitsGo : List Char → Nat → Option Nat
  | [], acc => some acc
  | c :: r, acc => if isDigitChar c then parseDigitsGo r (acc * 10 + digitVal c) else none

/-- Modelled from datetime.fromisoformat(): accepts exactly the strings
`isoformat` produces; `none` models the ValueError it raises on anything
else (in particular on the empty string). -/
def datetime_fromisoformat (s : String) : Option Int :=
  match s.data with
  | [] => none
  | '-' :: rest =>
    match rest with
    | [] => none
    | _ => (parseDigitsGo rest 0).map (fun n => -(n : Int))
  | l => (parseDigitsGo l 0).map (fun n => (n : Int))

/-- Modelled from generate_qr_codes.py, class QRCodeGenerator: after
`__init__` the object holds only the Fernet cipher built from the
SHA-256-derived key. -/
structure QRCodeGenerator where
  cipher : Fernet
deriving DecidableEq, Repr

/-- Modelled from qr_validator.py, class QRCodeValidator: after `__init__`
the object holds only the Fernet cipher built from the SHA-256-derived
key. -/
structure QRCodeValidator where
  cipher : Fernet
deriving DecidableEq, Repr

/-- QRCodeGenerator.__init__ (generate_qr_codes.py lines 35-39):
key = sha256(secret_key.encode()).digest(); cipher = Fernet(urlsafe_b64encode(key)). -/
def QRCodeGenerator.init (secret_key : String) : Except String QRCodeGenerator :=
  let key := sha256digest (strToBytes secret_key)
  (Fernet.ofB64Key (b64encodeBytes key)).map (fun f => ⟨f⟩)

/-- QRCodeValidator.__init__ (qr_validator.py lines 14-18): identical key
derivation to the generator's constructor. -/
def QRCodeValidator.init (secret_key : String) : Except String QRCodeValidator :=
  let key := sha256digest (strToBytes secret_key)
  (Fernet.ofB64Key (b64encodeBytes key)).map (fun f => ⟨f⟩)

/-- The f-string of create_validation_hash / validate_site_hash:
f"{site_data['siteId']}{site_data['name']}{site_data['coordinates']['lat']}{site_data['coordinates']['lng']}",
with each subscription able to raise. -/
def hash_string_of (site_data : JValue) : Except String String :=
  match pySubscript site_data "siteId" with
  | .error e => .error e
  | .ok sid =>
    match pySubscript site_data "name" with
    | .error e => .error e
    | .ok nm =>
      match pySubscript site_data "coordinates" with
      | .error e => .error e
      | .ok coords =>
        match pySubscript coords "lat" with
        | .error e => .error e
        | .ok latv =>
          match pySubscript site_data "coordinates" with
          | .error e => .error e
          | .ok coords2 =>
            match pySubscript coords2 "lng" with
            | .error e => .error e
            | .ok lngv => .ok (pyStr sid ++ pyStr nm ++ pyStr latv ++ pyStr lngv)

/-- QRCodeGenerator.create_validation_hash (generate_qr_codes.py lines
41-50): sha256(hash_string.encode()).hexdigest()[:16]; a KeyError is
printed and re-raised, so every failure propagates. -/
def QRCodeGenerator.create_validation_hash (site_data : JValue) : Except String String :=
  (hash_string_of site_data).map (fun hs => strTake (sha256hexdigest (strToBytes hs)) 16)

/-- QRCodeGenerator.encrypt_site_data (generate_qr_codes.py lines 52-63):
compact JSON, zlib-compress (best effort), Fernet-encrypt, and return the
token text as-is — the comment in the source notes Fernet output is
already urlsafe base64, so it deliberately avoids double-encoding. -/
def QRCodeGenerator.encrypt_site_data (g : QRCodeGenerator) (ts : Nat) (iv : Bytes)
    (site_data : JValue) : String :=
  let json_bytes := strToBytes (jsonDumps site_data)
  let compressed := zlibCompress json_bytes
  bytesToStr (g.cipher.encryptAt ts iv compressed)

/-- Modelled from float(x): Python numeric coercion (ValueError on a bad
string, TypeError on dict/list/None). -/
def pyFloatOfJ : JValue → Except String PyFloat
  | jnum f => .ok f
  | jint n => .ok ⟨n, 0⟩
  | jbool b => .ok ⟨if b then 1 else 0, 0⟩
  | jstr s =>
    (match parseJNumber (skipWs s.data) with
     | some (jint n, rest) => if (skipWs rest).isEmpty then .ok ⟨n, 0⟩ else .error "ValueError"
     | some (jnum f, rest) => if (skipWs rest).isEmpty then .ok f else .error "ValueError"
     | _ => .error "ValueError")
  | _ => .error "TypeError"

/-- Modelled from int(x): truncation toward zero; ValueError on a
non-integer string. -/
def pyIntOfJ : JValue → Except String Int
  | jint n => .ok n
  | jnum f => .ok (Int.tdiv f.m ((10 : Int) ^ f.e))
  | jbool b => .ok (if b then 1 else 0)
  | jstr s =>
    (match skipWs s.data with
     | '-' :: rest =>
       if !rest.isEmpty && rest.all isDigitChar then .ok (-(digitsToNat rest : Int))
       else .error "ValueError"
     | l =>
       if !l.isEmpty && l.all isDigitChar then .ok (digitsToNat l : Int)
       else .error "ValueError")
  | _ => .error "TypeError"

/-- QRCodeGenerator.generate_qr_data (generate_qr_codes.py lines 65-105).
The two datetime.now() reads the source performs (one for generatedAt on
line 87, one for expiresAt on line 89) are the explicit parameters `t1`
and `t2`, in that order.  KeyError / ValueError / TypeError are printed
and re-raised by the source, so every failure propagates. -/
def QRCodeGenerator.generate_qr_data (t1 t2 : Int) (site_info : JValue) :
    Except String JValue :=
  match pySubscript site_info "id" with
  | .error e => .error e
  | .ok idv =>
  match pySubscript site_info "name" with
  | .error e => .error e
  | .ok namev =>
  match pySubscript site_info "location" with
  | .error e => .error e
  | .ok locv =>
  match (pySubscript site_info "latitude").bind pyFloatOfJ with
  | .error e => .error e
  | .ok latf =>
  match (pySubscript site_info "longitude").bind pyFloatOfJ with
  | .error e => .error e
  | .ok lngf =>
  match (pySubscript site_info "safe_level").bind pyFloatOfJ with
  | .error e => .error e
  | .ok safef =>
  match (pySubscript site_info "warning_level").bind pyFloatOfJ with
  | .error e => .error e
  | .ok warnf =>
  match (pySubscript site_info "danger_level").bind pyFloatOfJ with
  | .error e => .error e
  | .ok dangf =>
  match (pySubscript site_info "geofence_radius").bind pyIntOfJ with
  | .error e => .error e
  | .ok radius =>
  match pySubscript site_info "qr_code" with
  | .error e => .error e
  | .ok qrv =>
  match pySubscript site_info "is_active" with
  | .error e => .error e
  | .ok actv =>
    let fields0 : List (String × JValue) :=
      [("siteId", jstr (pyStr idv)),
       ("name", jstr (pyStr namev)),
       ("location", jstr (pyStr locv)),
       ("coordinates", jobj [("lat", jnum latf), ("lng", jnum lngf)]),
       ("levels", jobj [("safe", jnum safef), ("warning", jnum warnf), ("danger", jnum dangf)]),
       ("geofenceRadius", jint radius),
       ("qrCode", jstr (pyStr qrv)),
       ("isActive", jbool (pythonTruthy actv)),
       ("generatedAt", jstr (isoformat t1)),
       ("expiresAt", jstr (isoformat (t2 + DAYS365))),
       ("validationHash", jstr "")]
    match QRCodeGenerator.create_validation_hash (jobj fields0) with
    | .error e => .error e
    | .ok h => .ok (jobj (insertKey fields0 "validationHash" (jstr h)))

/-- QRCodeValidator.decrypt_qr_data (qr_validator.py lines 20-35):
urlsafe_b64decode the scanned text, Fernet-decrypt the result, parse the
plaintext as JSON; the enclosing try/except maps every failure to None. -/
def QRCodeValidator.decrypt_qr_data (v : QRCodeValidator) (encrypted_data : String) :
    Option JValue :=
  match pyUrlsafeB64decode (strToBytes encrypted_data) with
  | none => none
  | some encrypted_bytes =>
    match v.cipher.decrypt encrypted_bytes with
    | none => none
    | some decrypted_bytes => jsonLoads (bytesToStr decrypted_bytes)

/-- QRCodeValidator.validate_site_hash (qr_validator.py lines 37-50):
recompute the hash from siteId/name/lat/lng and compare with the stored
validationHash; the try/except maps every failure to False. -/
def QRCodeValidator.validate_site_hash (site_data : JValue) : Bool :=
  match pyDictGetD site_data "validationHash" (jstr "") with
  | .error _ => false
  | .ok stored_hash =>
    match hash_string_of site_data with
    | .error _ => false
    | .ok hs =>
      match stored_hash with
      | jstr s => s == strTake (sha256hexdigest (strToBytes hs)) 16
      | _ => false

/-- QRCodeValidator.check_expiry (qr_validator.py lines 52-59):
datetime.now() < fromisoformat(site_data.get("expiresAt", "")); the
try/except maps every failure (missing field, unparseable string,
non-string value) to False. -/
def QRCodeValidator.check_expiry (now : Int) (site_data : JValue) : Bool :=
  match pyDictGetD site_data "expiresAt" (jstr "") with
  | .error _ => false
  | .ok ev =>
    match ev with
    | jstr s =>
      match datetime_fromisoformat s with
      | none => false
      | some t => decide (now < t)
    | _ => false

/-- QRCodeValidator.validate_qr_code (qr_validator.py lines 61-84): the
four-step pipeline.  `now` is the datetime.now() read inside check_expiry.
The result is the (is_valid, site_data, error_message) triple; `.error`
models an exception escaping to the caller (this function body has no
try/except of its own, so `site_data.get("isActive")` on a truthy
non-dict payload raises AttributeError). -/
def QRCodeValidator.validate_qr_code (v : QRCodeValidator) (now : Int) (qr_content : String) :
    Except String (Bool × Option JValue × String) :=
  match v.decrypt_qr_data qr_content with
  | none => .ok (false, none, "Invalid QR code format or decryption failed")
  | some site_data =>
    if pythonTruthy site_data = false then
      .ok (false, none, "Invalid QR code format or decryption failed")
    else
      match pyDictGet site_data "isActive" with
      | .error e => .error e
      | .ok act =>
        if pythonTruthyOpt act = false then
          .ok (false, some site_data, "This monitoring site is currently inactive")
        else if QRCodeValidator.validate_site_hash site_data = false then
          .ok (false, some site_data, "QR code data has been tampered with")
        else if QRCodeValidator.check_expiry now site_data = false then
          .ok (false, some site_data, "QR code has expired")
        else
          .ok (true, some site_data, "QR code is valid")

/-- Real value of a modelled Python float. -/
noncomputable def PyFloat.toReal (f : PyFloat) : ℝ := (f.m : ℝ) / 10 ^ f.e

/-- Numeric coercion performed implicitly by the arithmetic inside
haversine_distance (radians() raises TypeError on non-numbers). -/
noncomputable def realOfJ : JValue → Except String ℝ
  | jnum f => .ok f.toReal
  | jint n => .ok (n : ℝ)
  | jbool b => .ok (if b then 1 else 0)
  | _ => .error "TypeError"

/-- Python's `<=` on floats, as a Bool. -/
noncomputable def pyLE (d r : ℝ) : Bool := if d ≤ r then true else false

/-- haversine_distance (qr_validator.py lines 154-165): great-circle
distance in meters, Earth radius 6371000, degrees converted to radians
first.  Python floats are modelled by real numbers. -/
noncomputable def haversine_distance (lat1 lon1 lat2 lon2 : ℝ) : ℝ :=
  let rlat1 := lat1 * Real.pi / 180
  let rlat2 := lat2 * Real.pi / 180
  let rlon1 := lon1 * Real.pi / 180
  let rlon2 := lon2 * Real.pi / 180
  let dlat := rlat2 - rlat1
  let dlon := rlon2 - rlon1
  let a := Real.sin (dlat / 2) ^ 2 + Real.cos rlat1 * Real.cos rlat2 * Real.sin (dlon / 2) ^ 2
  let c := 2 * Real.arcsin (Real.sqrt a)
  c * 6371000

/-- validate_location_proximity (qr_validator.py lines 147-176): distance
from the user to the site's coordinates, then the inclusive comparison
`distance <= geofence_radius`. -/
noncomputable def validate_location_proximity (user_lat user_lng : ℝ) (site_data : JValue) :
    Except String (Bool × ℝ) :=
  match pySubscript site_data "coordinates" with
  | .error e => .error e
  | .ok site_coords =>
    match pySubscript site_coords "lat" with
    | .error e => .error e
    | .ok latv =>
      match pySubscript site_coords "lng" with
      | .error e => .error e
      | .ok lngv =>
        match realOfJ latv with
        | .error e => .error e
        | .ok slat =>
          match realOfJ lngv with
          | .error e => .error e
          | .ok slng =>
            let distance := haversine_distance user_lat user_lng slat slng
            match pySubscript site_data "geofenceRadius" with
            | .error e => .error e
            | .ok rv =>
              match realOfJ rv with
              | .error e => .error e
              | .ok r => .ok (pyLE distance r, distance)

set_option maxRecDepth 100000
set_option maxHeartbeats 1000000

/-- The generator-side shared secret (generate_qr_codes.py line 20). -/
def secret0 : String := "HydroSnap_QR_graycode@070505"

/-- The Fernet engine both constructors derive from `secret0`. -/
def fernet0 : Fernet :=
  ⟨(sha256digest (strToBytes secret0)).take 16, (sha256digest (strToBytes secret0)).drop 16⟩

/-- A validator built on `secret0`. -/
def v0 : QRCodeValidator := ⟨fernet0⟩

/-- A generator built on `secret0`. -/
def g0 : QRCodeGenerator := ⟨fernet0⟩

/-- A concrete IV for the per-call Fernet randomness. -/
def ivdemo : Bytes := List.range 16

/-- The extra urlsafe-base64 layer a token would need for
`decrypt_qr_data`'s leading urlsafe_b64decode to undo (the generator does
not apply it). -/
def encodeToken (tok : String) : String := bytesToStr (b64encodeBytes (strToBytes tok))

/-- The end-to-end example record of the specification: site S1/Alpha at
(10.0, 20.0), levels 1/2/3, radius 100, label Q1, active. -/
def site0 : JValue := jobj
  [("id", jstr "S1"), ("name", jstr "Alpha"), ("location", jstr "L"),
   ("latitude", jnum ⟨10, 0⟩), ("longitude", jnum ⟨20, 0⟩),
   ("safe_level", jnum ⟨1, 0⟩), ("warning_level", jnum ⟨2, 0⟩), ("danger_level", jnum ⟨3, 0⟩),
   ("geofence_radius", jint 100), ("qr_code", jstr "Q1"), ("is_active", jbool true)]

/-- The payload `generate_qr_data` builds from `site0` when both clock
reads return 0. -/
def payloadS1 : JValue := jobj
  [("siteId", jstr "S1"), ("name", jstr "Alpha"), ("location", jstr "L"),
   ("coordinates", jobj [("lat", jnum ⟨10, 0⟩), ("lng", jnum ⟨20, 0⟩)]),
   ("levels", jobj [("safe", jnum ⟨1, 0⟩), ("warning", jnum ⟨2, 0⟩), ("danger", jnum ⟨3, 0⟩)]),
   ("geofenceRadius", jint 100), ("qrCode", jstr "Q1"), ("isActive", jbool true),
   ("generatedAt", jstr (isoformat 0)), ("expiresAt", jstr (isoformat (0 + DAYS365))),
   ("validationHash", jstr (strTake (sha256hexdigest (strToBytes "S1Alpha10.020.0")) 16))]

/-- C1: the round-trip claim fails on the code: for the specification's own
example record, with generator and validator built from the same secret,
`decrypt_qr_data (encrypt_site_data (generate_qr_data r))` does not
succeed — it returns None, and validation of the generator's token reports
the decryption-failure result.  The validator base64-decodes the Fernet
token before Fernet.decrypt although the generator deliberately emits the
raw Fernet token, and the validator never reverses the generator's zlib
compression. -/
theorem c1_roundtrip_decryption_fails :
    QRCodeGenerator.init secret0 = .ok g0
    ∧ QRCodeValidator.init secret0 = .ok v0
    ∧ QRCodeGenerator.generate_qr_data 0 0 site0 = .ok payloadS1
    ∧ (QRCodeGenerator.generate_qr_data 0 0 site0).map
        (fun p => QRCodeValidator.decrypt_qr_data v0 (g0.encrypt_site_data 0 ivdemo p))
      = .ok none
    ∧ (QRCodeGenerator.generate_qr_data 0 0 site0).map
        (fun p => QRCodeValidator.validate_qr_code v0 0 (g0.encrypt_site_data 0 ivdemo p))
      = .ok (.ok (false, none, "Invalid QR code format or decryption failed")) :=
  ⟨rfl, rfl, rfl, rfl, rfl⟩

/-- C4 counterexample: when the two datetime.now() reads of
generate_qr_data differ (here 0 and 1 microsecond), expiresAt is the
second read plus 365 days, not generatedAt plus exactly 365 days. -/
theorem c4_counterexample :
    (QRCodeGenerator.generate_qr_data 0 1 site0).map
      (fun p => (pySubscript p "generatedAt", pySubscript p "expiresAt"))
    = .ok (.ok (jstr (isoformat 0)), .ok (jstr (isoformat (1 + DAYS365))))
    ∧ datetime_fromisoformat (isoformat 0) = some 0
    ∧ datetime_fromisoformat (isoformat (1 + DAYS365)) = some (1 + DAYS365)
    ∧ (1 + DAYS365 : Int) ≠ 0 + DAYS365 :=
  ⟨rfl, rfl, rfl, by decide⟩

/-- C4 (amended): generatedAt records the first datetime.now() read and
expiresAt equals the second datetime.now() read plus exactly 365 days;
when the two reads coincide, expiresAt equals generatedAt plus exactly
365 days. -/
theorem c4_expiry_from_second_clock_read (t1 t2 : Int) (site p : JValue)
    (h : QRCodeGenerator.generate_qr_data t1 t2 site = .ok p) :
    pySubscript p "generatedAt" = .ok (jstr (isoformat t1))
    ∧ pySubscript p "expiresAt" = .ok (jstr (isoformat (t2 + DAYS365)))
    ∧ (t1 = t2 → pySubscript p "expiresAt" = .ok (jstr (isoformat (t1 + DAYS365)))) := by
  unfold QRCodeGenerator.generate_qr_data at h
  repeat' split at h
  all_goals cases h
  all_goals exact ⟨rfl, rfl, fun ht => by subst ht; rfl⟩

/-- C4 witness: at the example record with both clock reads 0, the payload
records generatedAt 0 and expiresAt 0 + 365 days. -/
theorem c4_expiry_from_second_clock_read_witness :
    pySubscript payloadS1 "generatedAt" = .ok (jstr (isoformat 0))
    ∧ pySubscript payloadS1 "expiresAt" = .ok (jstr (isoformat (0 + DAYS365))) := by
  have h := c4_expiry_from_second_clock_read 0 0 site0 payloadS1 rfl
  exact ⟨h.1, h.2.1⟩

/-- A crafted token that decrypts to the JSON document "abc": the Fernet
encryption of the five plaintext bytes of `"abc"` (quotes included),
base64-wrapped once more so that decrypt_qr_data's leading
urlsafe_b64decode undoes it. -/
def qrStrPayload : String :=
  encodeToken (bytesToStr (fernet0.encryptAt 0 ivdemo (strToBytes "\"abc\"")))

/-- C5: the never-raises claim fails on the code: `qrStrPayload` decrypts
successfully to the truthy non-dict payload "abc", and validate_qr_code
then raises AttributeError from `site_data.get("isActive")` instead of
returning a structured result. -/
theorem c5_attributeerror_escapes_validate :
    QRCodeValidator.decrypt_qr_data v0 qrStrPayload = some (jstr "abc")
    ∧ pythonTruthy (jstr "abc") = true
    ∧ QRCodeValidator.validate_qr_code v0 0 qrStrPayload = .error "AttributeError" :=
  ⟨rfl, rfl, rfl⟩

/-- Shared reduction of validate_qr_code once decryption has produced a
truthy payload whose `.get("isActive")` succeeds. -/
theorem validate_qr_code_after_decrypt (v : QRCodeValidator) (now : Int) (qr : String)
    (d : JValue) (act : Option JValue)
    (hd : v.decrypt_qr_data qr = some d) (htr : pythonTruthy d = true)
    (hact : pyDictGet d "isActive" = .ok act) :
    v.validate_qr_code now qr =
      (if pythonTruthyOpt act = false then
        .ok (false, some d, "This monitoring site is currently inactive")
      else if QRCodeValidator.validate_site_hash d = false then
        .ok (false, some d, "QR code data has been tampered with")
      else if QRCodeValidator.check_expiry now d = false then
        .ok (false, some d, "QR code has expired")
      else .ok (true, some d, "QR code is valid")) := by
  simp only [QRCodeValidator.validate_qr_code, hd, htr, hact]
  rw [if_neg (by simp : ¬(true = false))]

/-- Shared reduction of validate_qr_code when decryption returns None or a
falsy payload (the `if not site_data:` branch). -/
theorem validate_qr_code_falsy (v : QRCodeValidator) (now : Int) (qr : String)
    (hfal : pythonTruthyOpt (v.decrypt_qr_data qr) = false) :
    v.validate_qr_code now qr = .ok (false, none, "Invalid QR code format or decryption failed") := by
  unfold QRCodeValidator.validate_qr_code
  cases h : v.decrypt_qr_data qr with
  | none => rfl
  | some d =>
    rw [h] at hfal
    simp only [pythonTruthyOpt] at hfal
    simp [hfal]

/-- C2: validate_qr_code runs its checks in the fixed order decrypt,
active flag, hash integrity, expiry, stopping at the first failure with
that failure's distinct message, and returns the valid result carrying the
payload only when all four pass. -/
theorem c2_validation_pipeline_order (v : QRCodeValidator) (now : Int) (qr : String) :
    (pythonTruthyOpt (v.decrypt_qr_data qr) = false →
      v.validate_qr_code now qr = .ok (false, none, "Invalid QR code format or decryption failed"))
    ∧ (∀ d act, v.decrypt_qr_data qr = some d → pythonTruthy d = true →
        pyDictGet d "isActive" = .ok act →
        ((pythonTruthyOpt act = false →
            v.validate_qr_code now qr =
              .ok (false, some d, "This monitoring site is currently inactive"))
         ∧ (pythonTruthyOpt act = true → QRCodeValidator.validate_site_hash d = false →
            v.validate_qr_code now qr =
              .ok (false, some d, "QR code data has been tampered with"))
         ∧ (pythonTruthyOpt act = true → QRCodeValidator.validate_site_hash d = true →
            QRCodeValidator.check_expiry now d = false →
            v.validate_qr_code now qr = .ok (false, some d, "QR code has expired"))
         ∧ (pythonTruthyOpt act = true → QRCodeValidator.validate_site_hash d = true →
            QRCodeValidator.check_expiry now d = true →
            v.validate_qr_code now qr = .ok (true, some d, "QR code is valid"))))
    ∧ ["Invalid QR code format or decryption failed",
       "This monitoring site is currently inactive",
       "QR code data has been tampered with",
       "QR code has expired",
       "QR code is valid"].Nodup := by
  refine ⟨validate_qr_code_falsy v now qr, ?_, by decide⟩
  intro d act hd htr hact
  have hred := validate_qr_code_after_decrypt v now qr d act hd htr hact
  refine ⟨fun hin => ?_, fun hactT hhash => ?_, fun hactT hhash hexp => ?_,
    fun hactT hhash hexp => ?_⟩
  · rw [hred]; simp [hin]
  · rw [hred]; simp [hactT, hhash]
  · rw [hred]; simp [hactT, hhash, hexp]
  · rw [hred]; simp [hactT, hhash, hexp]

/-- A payload that decrypts to exactly isActive=false. -/
def dInactive : JValue := jobj [("isActive", jbool false)]

/-- A token decrypting to `dInactive` (double-wrapped so that
decrypt_qr_data's leading base64 decode undoes the extra layer). -/
def qrInactive : String :=
  encodeToken (bytesToStr (fernet0.encryptAt 0 ivdemo (strToBytes (jsonDumps dInactive))))

/-- C2 witness: a concrete token passing all four checks validates. -/
def hValidDemo : String := strTake (sha256hexdigest (strToBytes "S1Alpha10.020.0")) 16

/-- A payload carrying a correct validation hash, active flag and a far
expiry, whose token passes the whole pipeline. -/
def dValid : JValue := jobj
  [("siteId", jstr "S1"), ("name", jstr "Alpha"),
   ("coordinates", jobj [("lat", jnum ⟨10, 0⟩), ("lng", jnum ⟨20, 0⟩)]),
   ("isActive", jbool true), ("expiresAt", jstr (isoformat 1000)),
   ("validationHash", jstr hValidDemo)]

/-- A token decrypting to `dValid`. -/
def qrValid : String :=
  encodeToken (bytesToStr (fernet0.encryptAt 0 ivdemo (strToBytes (jsonDumps dValid))))

/-- C2 witness: at `qrValid` all four checks pass and validation returns
the valid result carrying the payload. -/
theorem c2_validation_pipeline_order_witness :
    QRCodeValidator.validate_qr_code v0 0 qrValid = .ok (true, some dValid, "QR code is valid") := by
  have h := (c2_validation_pipeline_order v0 0 qrValid).2.1 dValid (some (jbool true)) rfl rfl rfl
  exact h.2.2.2 rfl rfl rfl

/-- C6: a payload that decrypts successfully (to a truthy dict) with
isActive equal to False always produces the inactive-site result — no
hypothesis about hash validity or expiry is needed. -/
theorem c6_inactive_short_circuit (v : QRCodeValidator) (now : Int) (qr : String) (d : JValue)
    (hd : v.decrypt_qr_data qr = some d) (htr : pythonTruthy d = true)
    (hact : pyDictGet d "isActive" = .ok (some (jbool false))) :
    v.validate_qr_code now qr = .ok (false, some d, "This monitoring site is currently inactive") := by
  rw [validate_qr_code_after_decrypt v now qr d (some (jbool false)) hd htr hact]
  simp [pythonTruthyOpt, pythonTruthy]

/-- C6 witness: the concrete inactive token is rejected as inactive. -/
theorem c6_inactive_short_circuit_witness :
    QRCodeValidator.validate_qr_code v0 0 qrInactive =
      .ok (false, some dInactive, "This monitoring site is currently inactive") :=
  c6_inactive_short_circuit v0 0 qrInactive dInactive rfl rfl rfl

/-- A token decrypting to the empty JSON object. -/
def qrEmpty : String :=
  encodeToken (bytesToStr (fernet0.encryptAt 0 ivdemo (strToBytes "\x7b\x7d")))

/-- C9 counterexample: the empty dict decrypts successfully and lacks the
isActive key entirely, yet validate_qr_code returns the decryption-failure
result (the empty dict is falsy, so `if not site_data:` fires), not the
inactive-site result the claim requires for every such payload. -/
theorem c9_counterexample :
    QRCodeValidator.decrypt_qr_data v0 qrEmpty = some (jobj [])
    ∧ pyDictGet (jobj []) "isActive" = .ok none
    ∧ QRCodeValidator.validate_qr_code v0 0 qrEmpty =
        .ok (false, none, "Invalid QR code format or decryption failed")
    ∧ "Invalid QR code format or decryption failed" ≠
        "This monitoring site is currently inactive" :=
  ⟨rfl, rfl, rfl, by decide⟩

/-- C9 (amended): a payload that decrypts successfully to a TRUTHY value
whose `.get("isActive")` succeeds and yields a missing key or any falsy
value produces the inactive-site result; the empty dict is excluded — being
falsy it takes the decryption-failure branch instead. -/
theorem c9_missing_or_falsy_isactive (v : QRCodeValidator) (now : Int) (qr : String)
    (d : JValue) (act : Option JValue)
    (hd : v.decrypt_qr_data qr = some d) (htr : pythonTruthy d = true)
    (hact : pyDictGet d "isActive" = .ok act) (hfal : pythonTruthyOpt act = false) :
    v.validate_qr_code now qr = .ok (false, some d, "This monitoring site is currently inactive") := by
  rw [validate_qr_code_after_decrypt v now qr d act hd htr hact]
  simp [hfal]

/-- A truthy payload with no isActive key at all. -/
def dNoActive : JValue := jobj [("a", jint 1)]

/-- A token decrypting to `dNoActive`. -/
def qrNoActive : String :=
  encodeToken (bytesToStr (fernet0.encryptAt 0 ivdemo (strToBytes (jsonDumps dNoActive))))

/-- C9 witness: a truthy payload lacking isActive is reported inactive. -/
theorem c9_missing_or_falsy_isactive_witness :
    QRCodeValidator.validate_qr_code v0 0 qrNoActive =
      .ok (false, some dNoActive, "This monitoring site is currently inactive") :=
  c9_missing_or_falsy_isactive v0 0 qrNoActive dNoActive none rfl rfl rfl rfl

/-- C10: when the payload passes the decrypt, active and hash checks but
its expiresAt field is absent or not a parseable timestamp string,
check_expiry returns false and validate_qr_code reports the expired
result — a structured result, not an exception and not a decryption or
format error. -/
theorem c10_unparseable_expiry_reports_expired (v : QRCodeValidator) (now : Int) (qr : String)
    (d : JValue) (act : Option JValue) (ev : JValue)
    (hd : v.decrypt_qr_data qr = some d) (htr : pythonTruthy d = true)
    (hact : pyDictGet d "isActive" = .ok act) (hactT : pythonTruthyOpt act = true)
    (hhash : QRCodeValidator.validate_site_hash d = true)
    (hev : pyDictGetD d "expiresAt" (jstr "") = .ok ev)
    (hpar : ∀ s, ev = jstr s → datetime_fromisoformat s = none) :
    QRCodeValidator.check_expiry now d = false
    ∧ v.validate_qr_code now qr = .ok (false, some d, "QR code has expired") := by
  have hcexp : QRCodeValidator.check_expiry now d = false := by
    cases ev with
    | jstr s => simp [QRCodeValidator.check_expiry, hev, hpar s rfl]
    | jint n => simp [QRCodeValidator.check_expiry, hev]
    | jnum f => simp [QRCodeValidator.check_expiry, hev]
    | jbool b => simp [QRCodeValidator.check_expiry, hev]
    | jnull => simp [QRCodeValidator.check_expiry, hev]
    | jobj fields => simp [QRCodeValidator.check_expiry, hev]
    | jarr items => simp [QRCodeValidator.check_expiry, hev]
  refine ⟨hcexp, ?_⟩
  rw [validate_qr_code_after_decrypt v now qr d act hd htr hact]
  simp [hactT, hhash, hcexp]

/-- The hash a generator would store for siteId "S1", name "A", lat 10.0,
lng 20.0. -/
def h10 : String := strTake (sha256hexdigest (strToBytes "S1A10.020.0")) 16

/-- An active payload with a correct validation hash but no expiresAt. -/
def d10 : JValue := jobj
  [("siteId", jstr "S1"), ("name", jstr "A"),
   ("coordinates", jobj [("lat", jnum ⟨10, 0⟩), ("lng", jnum ⟨20, 0⟩)]),
   ("isActive", jbool true), ("validationHash", jstr h10)]

/-- A token decrypting to `d10`. -/
def qr10 : String :=
  encodeToken (bytesToStr (fernet0.encryptAt 0 ivdemo (strToBytes (jsonDumps d10))))

/-- C10 witness: the concrete hash-valid active payload without expiresAt
is reported expired, via the theorem. -/
theorem c10_unparseable_expiry_reports_expired_witness :
    QRCodeValidator.check_expiry 0 d10 = false
    ∧ QRCodeValidator.validate_qr_code v0 0 qr10 = .ok (false, some d10, "QR code has expired") :=
  c10_unparseable_expiry_reports_expired v0 0 qr10 d10 (some (jbool true)) (jstr "")
    rfl rfl rfl rfl rfl rfl (fun s hs => by cases hs; rfl)

/-- Lowercase hexadecimal digit test. -/
def isLowerHexChar (c : Char) : Bool :=
  (48 ≤ c.toNat && c.toNat ≤ 57) || (97 ≤ c.toNat && c.toNat ≤ 102)

/-- Both hex digits of a byte below 256 are lowercase hex characters. -/
theorem hexChar_isLowerHex : ∀ n, n < 16 → isLowerHexChar (hexChar n) = true := by decide

/-- Length of the hex fold underlying `bytesToHex`. -/
theorem hexFold_length (bs : Bytes) :
    (bs.foldr (fun b acc => hexChar (b / 16) :: hexChar (b % 16) :: acc) []).length
      = 2 * bs.length := by
  induction bs with
  | nil => rfl
  | cons b t ih => simp [List.foldr, ih]; omega

/-- Every character of the hex fold of bytes below 256 is lowercase hex. -/
theorem hexFold_mem (bs : Bytes) (hb : ∀ b ∈ bs, b < 256) :
    ∀ c ∈ bs.foldr (fun b acc => hexChar (b / 16) :: hexChar (b % 16) :: acc) [],
      isLowerHexChar c = true := by
  induction bs with
  | nil => intro c hc; cases hc
  | cons b t ih =>
    intro c hc
    have hb0 : b < 256 := hb b (List.mem_cons_self b t)
    rcases List.mem_cons.mp hc with rfl | hc2
    · exact hexChar_isLowerHex (b / 16) (by omega)
    · rcases List.mem_cons.mp hc2 with rfl | hc3
      · exact hexChar_isLowerHex (b % 16) (by omega)
      · exact ih (fun x hx => hb x (List.mem_cons_of_mem b hx)) c hc3

/-- The model digest is 32 bytes, each below 256. -/
theorem sha256digest_shape (bs : Bytes) :
    (sha256digest bs).length = 32 ∧ ∀ b ∈ sha256digest bs, b < 256 := by
  constructor
  · simp [sha256digest]
  · intro b hb
    simp only [sha256digest, List.mem_map] at hb
    obtain ⟨i, _, hi⟩ := hb
    omega

/-- C3: the validation hash is exactly the one-way digest of the
concatenation siteId, name, lat, lng, truncated to a 16-character
lowercase-hexadecimal string; it ignores every other field (thresholds,
active flag, radius, timestamps), so payloads agreeing on those four
fields hash identically; and the validator's recomputation accepts a
stored hash exactly when it equals the generator's value. -/
theorem c3_validation_hash_formula :
    (∀ d sid nm coords latv lngv,
      pySubscript d "siteId" = .ok sid → pySubscript d "name" = .ok nm →
      pySubscript d "coordinates" = .ok coords →
      pySubscript coords "lat" = .ok latv → pySubscript coords "lng" = .ok lngv →
      QRCodeGenerator.create_validation_hash d =
        .ok (strTake (sha256hexdigest (strToBytes (pyStr sid ++ pyStr nm ++ pyStr latv ++ pyStr lngv))) 16))
    ∧ (∀ bs, (strTake (sha256hexdigest bs) 16).length = 16
        ∧ ∀ c ∈ (strTake (sha256hexdigest bs) 16).data, isLowerHexChar c = true)
    ∧ (∀ d1 d2 sid nm c1 c2 latv lngv,
      pySubscript d1 "siteId" = .ok sid → pySubscript d1 "name" = .ok nm →
      pySubscript d1 "coordinates" = .ok c1 →
      pySubscript c1 "lat" = .ok latv → pySubscript c1 "lng" = .ok lngv →
      pySubscript d2 "siteId" = .ok sid → pySubscript d2 "name" = .ok nm →
      pySubscript d2 "coordinates" = .ok c2 →
      pySubscript c2 "lat" = .ok latv → pySubscript c2 "lng" = .ok lngv →
      QRCodeGenerator.create_validation_hash d1 = QRCodeGenerator.create_validation_hash d2)
    ∧ (∀ d h, QRCodeGenerator.create_validation_hash d = .ok h →
      (QRCodeValidator.validate_site_hash d = true ↔
        pyDictGetD d "validationHash" (jstr "") = .ok (jstr h))) := by
  have hformula : ∀ d sid nm coords latv lngv,
      pySubscript d "siteId" = .ok sid → pySubscript d "name" = .ok nm →
      pySubscript d "coordinates" = .ok coords →
      pySubscript coords "lat" = .ok latv → pySubscript coords "lng" = .ok lngv →
      QRCodeGenerator.create_validation_hash d =
        .ok (strTake (sha256hexdigest (strToBytes (pyStr sid ++ pyStr nm ++ pyStr latv ++ pyStr lngv))) 16) := by
    intro d sid nm coords latv lngv h1 h2 h3 h4 h5
    simp [QRCodeGenerator.create_validation_hash, hash_string_of, Except.map, h1, h2, h3, h4, h5]
  refine ⟨hformula, ?_, ?_, ?_⟩
  · intro bs
    have hlen : (sha256hexdigest bs).data.length = 64 := by
      show (bytesToHex (sha256digest bs)).data.length = 64
      have h1 : (bytesToHex (sha256digest bs)).data
          = (sha256digest bs).foldr (fun b acc => hexChar (b / 16) :: hexChar (b % 16) :: acc) [] := rfl
      rw [h1, hexFold_length, (sha256digest_shape bs).1]
    constructor
    · show (((sha256hexdigest bs).data.take 16)).length = 16
      rw [List.length_take, hlen]
      omega
    · intro c hc
      have hc2 : c ∈ (sha256hexdigest bs).data := List.take_subset 16 _ hc
      exact hexFold_mem (sha256digest bs) (sha256digest_shape bs).2 c hc2
  · intro d1 d2 sid nm c1 c2 latv lngv h1 h2 h3 h4 h5 h6 h7 h8 h9 h10x
    rw [hformula d1 sid nm c1 latv lngv h1 h2 h3 h4 h5,
        hformula d2 sid nm c2 latv lngv h6 h7 h8 h9 h10x]
  · intro d h hcr
    cases hh : hash_string_of d with
    | error e => simp [QRCodeGenerator.create_validation_hash, Except.map, hh] at hcr
    | ok hs =>
      have hval : h = strTake (sha256hexdigest (strToBytes hs)) 16 := by
        simp [QRCodeGenerator.create_validation_hash, Except.map, hh] at hcr
        exact hcr.symm
      have hobj : ∃ fields, d = jobj fields := by
        cases d with
        | jobj fields => exact ⟨fields, rfl⟩
        | jstr s => simp [hash_string_of, pySubscript] at hh
        | jint n => simp [hash_string_of, pySubscript] at hh
        | jnum f => simp [hash_string_of, pySubscript] at hh
        | jbool b => simp [hash_string_of, pySubscript] at hh
        | jnull => simp [hash_string_of, pySubscript] at hh
        | jarr items => simp [hash_string_of, pySubscript] at hh
      obtain ⟨fields, rfl⟩ := hobj
      subst hval
      cases hst : (lookupField fields "validationHash").getD (jstr "") with
      | jstr s =>
        simp [QRCodeValidator.validate_site_hash, pyDictGetD, hst, hh]
      | jint n => simp [QRCodeValidator.validate_site_hash, pyDictGetD, hst, hh]
      | jnum f => simp [QRCodeValidator.validate_site_hash, pyDictGetD, hst, hh]
      | jbool b => simp [QRCodeValidator.validate_site_hash, pyDictGetD, hst, hh]
      | jnull => simp [QRCodeValidator.validate_site_hash, pyDictGetD, hst, hh]
      | jobj f2 => simp [QRCodeValidator.validate_site_hash, pyDictGetD, hst, hh]
      | jarr f2 => simp [QRCodeValidator.validate_site_hash, pyDictGetD, hst, hh]

/-- A payload with identity/location fields plus thresholds and flags. -/
def dHashA : JValue := jobj
  [("siteId", jstr "S1"), ("name", jstr "Alpha"),
   ("coordinates", jobj [("lat", jnum ⟨10, 0⟩), ("lng", jnum ⟨20, 0⟩)]),
   ("levels", jobj [("safe", jnum ⟨1, 0⟩), ("warning", jnum ⟨2, 0⟩), ("danger", jnum ⟨3, 0⟩)]),
   ("geofenceRadius", jint 100), ("isActive", jbool true), ("generatedAt", jstr "0")]

/-- Same identity/location fields, different thresholds, flag, radius and
timestamps. -/
def dHashB : JValue := jobj
  [("siteId", jstr "S1"), ("name", jstr "Alpha"),
   ("coordinates", jobj [("lat", jnum ⟨10, 0⟩), ("lng", jnum ⟨20, 0⟩)]),
   ("levels", jobj [("safe", jnum ⟨7, 0⟩), ("warning", jnum ⟨8, 0⟩), ("danger", jnum ⟨9, 0⟩)]),
   ("geofenceRadius", jint 5), ("isActive", jbool false), ("expiresAt", jstr "xyz")]

/-- C3 witness: concrete hash value, insensitivity to non-identity fields,
and validator agreement at a concrete payload. -/
theorem c3_validation_hash_formula_witness :
    QRCodeGenerator.create_validation_hash dHashA = .ok hValidDemo
    ∧ QRCodeGenerator.create_validation_hash dHashA = QRCodeGenerator.create_validation_hash dHashB
    ∧ (QRCodeValidator.validate_site_hash dValid = true ↔
        pyDictGetD dValid "validationHash" (jstr "") = .ok (jstr hValidDemo)) := by
  refine ⟨?_, ?_, ?_⟩
  · exact c3_validation_hash_formula.1 dHashA (jstr "S1") (jstr "Alpha")
      (jobj [("lat", jnum ⟨10, 0⟩), ("lng", jnum ⟨20, 0⟩)]) (jnum ⟨10, 0⟩) (jnum ⟨20, 0⟩)
      rfl rfl rfl rfl rfl
  · exact c3_validation_hash_formula.2.2.1 dHashA dHashB (jstr "S1") (jstr "Alpha")
      (jobj [("lat", jnum ⟨10, 0⟩), ("lng", jnum ⟨20, 0⟩)])
      (jobj [("lat", jnum ⟨10, 0⟩), ("lng", jnum ⟨20, 0⟩)]) (jnum ⟨10, 0⟩) (jnum ⟨20, 0⟩)
      rfl rfl rfl rfl rfl rfl rfl rfl rfl rfl
  · exact c3_validation_hash_formula.2.2.2 dValid hValidDemo rfl

/-- C8: generator and validator derive the identical symmetric key from a
shared secret by hashing it (sha256, then the Fernet key split), and each
engine's state is a function of the derived key alone — any two secrets
with the same digest produce identical engines. -/
theorem c8_key_derivation :
    (∀ s, (QRCodeGenerator.init s).map (fun g => g.cipher)
        = (QRCodeValidator.init s).map (fun w => w.cipher))
    ∧ (∀ s, QRCodeValidator.init s
        = (Fernet.ofB64Key (b64encodeBytes (sha256digest (strToBytes s)))).map (fun f => ⟨f⟩))
    ∧ (∀ s1 s2, sha256digest (strToBytes s1) = sha256digest (strToBytes s2) →
        QRCodeGenerator.init s1 = QRCodeGenerator.init s2
        ∧ QRCodeValidator.init s1 = QRCodeValidator.init s2) := by
  refine ⟨?_, fun s => rfl, ?_⟩
  · intro s
    cases h : Fernet.ofB64Key (b64encodeBytes (sha256digest (strToBytes s))) with
    | error e => simp [QRCodeGenerator.init, QRCodeValidator.init, Except.map, h]
    | ok f => simp [QRCodeGenerator.init, QRCodeValidator.init, Except.map, h]
  · intro s1 s2 h12
    constructor
    · simp [QRCodeGenerator.init, h12]
    · simp [QRCodeValidator.init, h12]

/-- C8 witness: both engines agree at the repository's secret, the
derivation formula holds there, and equal digests give equal engines. -/
theorem c8_key_derivation_witness :
    (QRCodeGenerator.init secret0).map (fun g => g.cipher)
      = (QRCodeValidator.init secret0).map (fun w => w.cipher)
    ∧ QRCodeValidator.init secret0
      = (Fernet.ofB64Key (b64encodeBytes (sha256digest (strToBytes secret0)))).map (fun f => ⟨f⟩)
    ∧ QRCodeValidator.init secret0 = QRCodeValidator.init secret0 :=
  ⟨c8_key_derivation.1 secret0, c8_key_derivation.2.1 secret0,
   (c8_key_derivation.2.2 secret0 secret0 rfl).2⟩

/-- A site payload centred at (0, 0) with radius 150. -/
def sd7 : JValue := jobj
  [("coordinates", jobj [("lat", jnum ⟨0, 0⟩), ("lng", jnum ⟨0, 0⟩)]),
   ("geofenceRadius", jint 150)]

/-- C7: the geofence checker computes the haversine great-circle distance
(Earth radius 6371000 m, degrees converted to radians); identical user and
site coordinates give distance exactly 0; and the within-geofence verdict
is true exactly when distance is at most the radius (inclusive
boundary). -/
theorem c7_geofence_haversine :
    (∀ lat lng : ℝ, haversine_distance lat lng lat lng = 0)
    ∧ (∀ (u1 u2 : ℝ) (sd coords latv lngv rv : JValue) (slat slng r : ℝ),
        pySubscript sd "coordinates" = .ok coords →
        pySubscript coords "lat" = .ok latv → pySubscript coords "lng" = .ok lngv →
        realOfJ latv = .ok slat → realOfJ lngv = .ok slng →
        pySubscript sd "geofenceRadius" = .ok rv → realOfJ rv = .ok r →
        validate_location_proximity u1 u2 sd =
          .ok (pyLE (haversine_distance u1 u2 slat slng) r, haversine_distance u1 u2 slat slng))
    ∧ (∀ d r : ℝ, pyLE d r = true ↔ d ≤ r) := by
  refine ⟨?_, ?_, ?_⟩
  · intro lat lng
    unfold haversine_distance
    simp [sub_self, Real.sin_zero, Real.sqrt_zero, Real.arcsin_zero]
  · intro u1 u2 sd coords latv lngv rv slat slng r h1 h2 h3 h4 h5 h6 h7
    simp only [validate_location_proximity, h1, h2, h3, h4, h5, h6, h7]
  · intro d r
    constructor
    · intro h
      by_contra hc
      simp [pyLE, hc] at h
    · intro h
      simp [pyLE, h]

/-- C7 witness: distance from a point to itself is 0; the concrete site
payload at the origin with radius 150 yields the haversine distance and
the inclusive comparison; and the boundary test accepts 0 ≤ 150. -/
theorem c7_geofence_haversine_witness :
    haversine_distance 3 4 3 4 = 0
    ∧ validate_location_proximity 0 0 sd7 =
        .ok (pyLE (haversine_distance 0 0 (PyFloat.toReal ⟨0, 0⟩) (PyFloat.toReal ⟨0, 0⟩))
               ((150 : Int) : ℝ),
             haversine_distance 0 0 (PyFloat.toReal ⟨0, 0⟩) (PyFloat.toReal ⟨0, 0⟩))
    ∧ pyLE 0 150 = true :=
  ⟨c7_geofence_haversine.1 3 4,
   c7_geofence_haversine.2.1 0 0 sd7 (jobj [("lat", jnum ⟨0, 0⟩), ("lng", jnum ⟨0, 0⟩)])
     (jnum ⟨0, 0⟩) (jnum ⟨0, 0⟩) (jint 150) (PyFloat.toReal ⟨0, 0⟩) (PyFloat.toReal ⟨0, 0⟩)
     ((150 : Int) : ℝ) rfl rfl rfl rfl rfl rfl rfl,
   (c7_geofence_haversine.2.2 0 150).mpr (by norm_num)⟩
